import Mathlib

/-!
Shallow embedding of the getporter/flux magefile (src/magefile.go).

The magefile is a sequence of task functions shelling out to external tools
(kind, docker, kubectl, flux).  Following the spec, the external tools are
opaque collaborators: their observable outcomes (command success, captured
output text, container state) are oracle fields of explicit world structures.
Each mage target is embedded as a function from such a world to a result
(Except Unit, error meaning the process aborts via mgx.Must / StopOnError)
together with a trace of the effects it issues (commands run, files written,
environment variables set, log lines).
-/

namespace PorterFlux

/-- Constants from the magefile (src/magefile.go lines 32-50). -/
def kindClusterName : String := "porter"

/-- Relative location of the KUBECONFIG for the test cluster. -/
def kubeconfig : String := "kind.config"

/-- Namespace of the porter operator. -/
def operatorNamespace : String := "porter-operator-system"

/-- Container name of the local registry. -/
def registryContainer : String := "registry"

/-- Observable effects issued by the magefile: external commands, file and
environment writes, and log lines.  A dep effect records an mg.Deps invocation
of another target. -/
inductive Effect where
  | runCmd (program : String) (args : List String) : Effect
  | readFile (path : String) : Effect
  | writeFile (path : String) (content : String) : Effect
  | removeFile (path : String) : Effect
  | setEnv (name : String) (value : String) : Effect
  | logMsg (msg : String) : Effect
  | dep (target : String) : Effect
deriving DecidableEq, Repr

/-- Whether the character list s starts with the character list p. -/
def startsWithChars : List Char → List Char → Bool
  | _, [] => true
  | [], _ :: _ => false
  | c :: cs, p :: ps => c == p && startsWithChars cs ps

/-- Whether the character list pat occurs contiguously inside s. -/
def containsChars : List Char → List Char → Bool
  | [], pat => pat.isEmpty
  | c :: cs, pat => startsWithChars (c :: cs) pat || containsChars cs pat

/-- Go strings.Contains: substring containment on strings. -/
def strContains (s sub : String) : Bool :=
  containsChars s.toList sub.toList

/-- Go strconv.ParseBool: accepts exactly 1, t, T, TRUE, true, True,
0, f, F, FALSE, false, False; anything else is a parse error (none). -/
def parseBool (s : String) : Option Bool :=
  if s = "1" ∨ s = "t" ∨ s = "T" ∨ s = "TRUE" ∨ s = "true" ∨ s = "True" then some true
  else if s = "0" ∨ s = "f" ∨ s = "F" ∨ s = "FALSE" ∨ s = "false" ∨ s = "False" then some false
  else none

/-- Go filepath.Join for the two-segment uses in the magefile. -/
def pathJoin (a b : String) : String := a ++ "/" ++ b

/-! ## Registry manager (StartDockerRegistry / StopDockerRegistry, magefile.go 298-335) -/

/-- Oracle world for the docker registry container: its current state and the
outcomes of the docker commands the magefile may issue against it. -/
structure RegWorld where
  /-- a container named registry exists (running or stopped) -/
  present : Bool
  /-- that container reports a running state -/
  running : Bool
  /-- docker rm -f returns an error -/
  rmErr : Bool
  /-- the text the magefile observes from the failed docker rm (named stderr in the source) -/
  rmStderr : String
  /-- docker run -d succeeds -/
  runOk : Bool
deriving DecidableEq, Repr

def inspectRunningCmd (name : String) : Effect :=
  Effect.runCmd "docker" ["container", "inspect", "-f", "\x7b\x7b.State.Running\x7d\x7d", name]

def dockerInspectCmd (name : String) : Effect :=
  Effect.runCmd "docker" ["inspect", name]

def dockerRmCmd (name : String) : Effect :=
  Effect.runCmd "docker" ["rm", "-f", name]

def dockerRunRegistryCmd : Effect :=
  Effect.runCmd "docker" ["run", "-d", "-p", "5000:5000", "--name", registryContainer, "registry:2"]

/-- Modelled external behaviour of the container engine (an opaque collaborator
per the spec): the stdout of docker container inspect -f on the running-state
field is the container's boolean state when the container exists, and empty
output when the inspect command fails because no such container exists. -/
def dockerInspectRunningOut (present running : Bool) : String :=
  if present then (if running then "true" else "false") else ""

/-- isContainerRunning (magefile.go 318-322): the command error and the parse
error are both discarded; the result is the parsed boolean, defaulting to
false. -/
def isContainerRunning (inspectOut : String) : Bool :=
  (parseBool inspectOut).getD false

/-- containerExists (magefile.go 324-327): docker inspect of a container name
exits 0 exactly when the container exists (external contract). -/
def containerExists (w : RegWorld) : Bool := w.present

/-- removeContainer (magefile.go 329-335): runs docker rm -f; a failure whose
observed text contains the literal text No such container is tolerated, any
other failure is fatal (mgx.Must).  After a tolerated outcome no container
with the name remains (external contract of forced removal / absence). -/
def removeContainer (w : RegWorld) (name : String) : Except Unit RegWorld × List Effect :=
  let res : Except Unit RegWorld :=
    if w.rmErr && !(strContains w.rmStderr "No such container") then Except.error ()
    else Except.ok { w with present := false, running := false }
  (res, [dockerRmCmd name])

/-- StopDockerRegistry (magefile.go 311-316). -/
def StopDockerRegistry (w : RegWorld) : Except Unit RegWorld × List Effect :=
  if containerExists w then
    let r := removeContainer w registryContainer
    (r.1, dockerInspectCmd registryContainer :: Effect.logMsg "Stopping local docker registry" :: r.2)
  else
    (Except.ok w, [dockerInspectCmd registryContainer])

/-- StartDockerRegistry (magefile.go 299-308): no-op if the registry container
reports running; otherwise stop and remove any existing container with the
name and start a fresh one (after which the container is present and running —
external contract of docker run -d). -/
def StartDockerRegistry (w : RegWorld) : Except Unit RegWorld × List Effect :=
  let insp := inspectRunningCmd registryContainer
  if isContainerRunning (dockerInspectRunningOut w.present w.running) then
    (Except.ok w, [insp])
  else
    let stopped := StopDockerRegistry w
    match stopped.1 with
    | Except.error er => (Except.error er, insp :: stopped.2)
    | Except.ok w1 =>
      let tr := insp :: stopped.2 ++
        [Effect.logMsg "Starting local docker registry", dockerRunRegistryCmd]
      if w.runOk then (Except.ok { w1 with present := true, running := true }, tr)
      else (Except.error (), tr)

/-- Number of container-start (docker run) commands in a trace. -/
def dockerRunCount (tr : List Effect) : Nat :=
  (tr.filter fun e =>
    match e with
    | Effect.runCmd "docker" ("run" :: _) => true
    | _ => false).length

/-! ## Network linker (isOnDockerNetwork, magefile.go 217-221) -/

/-- isOnDockerNetwork (magefile.go 217-221), on the texts observed from the two
docker inspect commands (both command errors are discarded in the source):
strings.Contains(networks, networkId). -/
def isOnDockerNetwork (networkIdOut networksOut : String) : Bool :=
  strContains networksOut networkIdOut

/-- One entry of a container's attached-networks map as docker reports it:
the network name keys an object carrying the network's unique identifier. -/
structure DockerNetworkEntry where
  name : String
  id : String
deriving DecidableEq, Repr

/-- Serialization of one attached-network entry, in the shape docker emits for
json .NetworkSettings.Networks (the relevant field being NetworkID). -/
def serializeEntry (n : DockerNetworkEntry) : String :=
  "\"" ++ n.name ++ "\":\x7b\"NetworkID\":\"" ++ n.id ++ "\"\x7d"

def serializeNetworksAux : List DockerNetworkEntry → String
  | [] => ""
  | [n] => serializeEntry n
  | n :: n2 :: rest => serializeEntry n ++ "," ++ serializeNetworksAux (n2 :: rest)

/-- Serialized attached-networks map of a container (a JSON object). -/
def serializeNetworks (ns : List DockerNetworkEntry) : String :=
  "\x7b" ++ serializeNetworksAux ns ++ "\x7d"

/-- Spec-side definition (for comparison with the source's containment check):
the network's resolved identifier is actually a member of the container's
attached-networks set. -/
def networkMember (ns : List DockerNetworkEntry) (idStr : String) : Bool :=
  ns.any fun n => n.id == idStr

/-! ## Cluster deletion (DeleteKindCluster, magefile.go 207-215) -/

/-- Oracle world for cluster deletion. -/
structure DeleteWorld where
  /-- a kind cluster with the fixed name exists -/
  clusterExists : Bool
  /-- outcome of the kind delete command when a cluster exists -/
  deleteCmdOk : Bool
  /-- observed output of docker network inspect -f on the Id field -/
  networkIdOut : String
  /-- observed output of docker inspect -f on the container's networks -/
  networksOut : String
  /-- docker network disconnect succeeds -/
  disconnectOk : Bool
deriving DecidableEq, Repr

/-- Modelled from the spec: the cluster tool's delete subcommand is lenient —
the spec states deletion of the named cluster treats absence as not an error,
so deleting when no cluster exists succeeds; otherwise the command's own
outcome decides. -/
def kindDeleteOk (clusterExists cmdOk : Bool) : Bool :=
  if clusterExists then cmdOk else true

def kindDeleteCmd : Effect :=
  Effect.runCmd "kind" ["delete", "cluster", "--name", kindClusterName]

def networkInspectCmd : Effect :=
  Effect.runCmd "docker" ["network", "inspect", "kind", "-f", "\x7b\x7b.Id\x7d\x7d"]

def containerNetworksCmd : Effect :=
  Effect.runCmd "docker" ["inspect", registryContainer, "-f", "\x7b\x7bjson .NetworkSettings.Networks\x7d\x7d"]

def networkDisconnectCmd : Effect :=
  Effect.runCmd "docker" ["network", "disconnect", "kind", registryContainer]

/-- DeleteKindCluster (magefile.go 207-215): delete the cluster (strict builder,
so a failing delete command aborts), then disconnect the registry container
from the kind network only if isOnDockerNetwork reports a link. -/
def DeleteKindCluster (w : DeleteWorld) : Except Unit Unit × List Effect :=
  let head := [Effect.dep "EnsureKind", kindDeleteCmd]
  if kindDeleteOk w.clusterExists w.deleteCmdOk then
    if isOnDockerNetwork w.networkIdOut w.networksOut then
      if w.disconnectOk then
        (Except.ok (), head ++ [networkInspectCmd, containerNetworksCmd, networkDisconnectCmd])
      else
        (Except.error (), head ++ [networkInspectCmd, containerNetworksCmd, networkDisconnectCmd])
    else
      (Except.ok (), head ++ [networkInspectCmd, containerNetworksCmd])
  else
    (Except.error (), head)

/-! ## Cluster creation (CreateKindCluster, magefile.go 152-196) -/

/-- One entry of net.InterfaceAddrs as seen by the selection loop. -/
structure Addr where
  /-- the type assertion to an IP network address succeeds -/
  isIPNet : Bool
  isLoopback : Bool
  /-- To4 is non-nil, i.e. the address is IPv4 -/
  isIPv4 : Bool
  ipStr : String
deriving DecidableEq, Repr

/-- The address-selection loop of CreateKindCluster (magefile.go 160-169):
scan the reported addresses in order; the first IP-network, non-loopback,
IPv4 address is taken (break); otherwise the address stays empty. -/
def selectIP : List Addr → String
  | [] => ""
  | a :: rest =>
    if a.isIPNet && !a.isLoopback then
      if a.isIPv4 then a.ipStr else selectIP rest
    else selectIP rest

/-- A piece of the parsed kind configuration template: literal text or the
single substitution variable Address. -/
inductive TmplPiece where
  | lit : String → TmplPiece
  | addressVar : TmplPiece
deriving DecidableEq, Repr

/-- Template execution (text/template with the Address data field). -/
def renderPieces (addr : String) : List TmplPiece → String
  | [] => ""
  | TmplPiece.lit s :: rest => s ++ renderPieces addr rest
  | TmplPiece.addressVar :: rest => addr ++ renderPieces addr rest

/-- Oracle world for cluster creation. -/
structure CreateWorld where
  /-- the list net.InterfaceAddrs reports -/
  addrs : List Addr
  /-- net.InterfaceAddrs itself succeeds -/
  interfaceAddrsOk : Bool
  /-- working directory (pwd) -/
  cwd : String
  /-- parsed content of hack/kind.config.yaml; none models a read error -/
  tmplRead : Option (List TmplPiece)
  /-- template parsing succeeds -/
  parseOk : Bool
  /-- template execution succeeds -/
  execOk : Bool
  /-- number of template pieces rendered into the buffer before a failing
  execution stops -/
  execStop : Nat
  /-- writing the rendered file succeeds -/
  writeOk : Bool
  /-- the temporary rendered file already exists before the call -/
  tmpExists0 : Bool
  /-- kind create cluster succeeds -/
  kindCreateOk : Bool
  /-- docker network connect succeeds -/
  netConnectOk : Bool
  /-- kubectl apply of the local-registry manifest succeeds -/
  applyOk : Bool
deriving Repr

def kindCreateCmd : Effect :=
  Effect.runCmd "kind" ["create", "cluster", "--name", kindClusterName, "--config", "kind.config.yaml"]

def netConnectCmd : Effect :=
  Effect.runCmd "docker" ["network", "connect", "kind", registryContainer]

def applyCmd : Effect :=
  Effect.runCmd "kubectl" ["apply", "-f", "hack/local-registry.yaml"]

/-- Result of CreateKindCluster: outcome, issued effects, and whether the
temporary rendered configuration file exists after the call returns. -/
structure CreateResult where
  res : Except Unit Unit
  trace : List Effect
  tmpExists : Bool
deriving Repr

/-- CreateKindCluster (magefile.go 152-196).  Control flow of the source:
mg.Deps(EnsureKind); net.InterfaceAddrs (fatal on error); the address loop;
os.Setenv KUBECONFIG; read hack/kind.config.yaml (fatal on error); parse the
template (fatal on error); execute the template — the execution error is
immediately overwritten by the error of the subsequent file write, so only
the write is checked; after a successful write, defer os.Remove of the
rendered file (runs on every later exit, success or panic); kind create
cluster, docker network connect, kubectl apply — each strict.
A writeFile effect is recorded only for a successful write.  The installer
target EnsureKind is an external collaborator excluded by the spec and is
modelled as always available. -/
def CreateKindCluster (w : CreateWorld) : CreateResult :=
  let depTr : List Effect := [Effect.dep "EnsureKind"]
  if !w.interfaceAddrsOk then
    ⟨Except.error (), depTr, w.tmpExists0⟩
  else
    let ipAddress := selectIP w.addrs
    let readTr := depTr ++ [Effect.setEnv "KUBECONFIG" (pathJoin w.cwd kubeconfig),
      Effect.readFile "hack/kind.config.yaml"]
    match w.tmplRead with
    | none => ⟨Except.error (), readTr, w.tmpExists0⟩
    | some pieces =>
      if !w.parseOk then
        ⟨Except.error (), readTr, w.tmpExists0⟩
      else
        let contents :=
          if w.execOk then renderPieces ipAddress pieces
          else renderPieces ipAddress (pieces.take w.execStop)
        if !w.writeOk then
          ⟨Except.error (), readTr, w.tmpExists0⟩
        else
          let wroteTr := readTr ++ [Effect.writeFile "kind.config.yaml" contents]
          if !w.kindCreateOk then
            ⟨Except.error (), wroteTr ++ [kindCreateCmd, Effect.removeFile "kind.config.yaml"], false⟩
          else if !w.netConnectOk then
            ⟨Except.error (),
              wroteTr ++ [kindCreateCmd, netConnectCmd, Effect.removeFile "kind.config.yaml"], false⟩
          else if !w.applyOk then
            ⟨Except.error (),
              wroteTr ++ [kindCreateCmd, netConnectCmd, applyCmd, Effect.removeFile "kind.config.yaml"],
              false⟩
          else
            ⟨Except.ok (),
              wroteTr ++ [kindCreateCmd, netConnectCmd, applyCmd, Effect.removeFile "kind.config.yaml"],
              false⟩

/-! ## Ensuring the cluster (EnsureCluster / useCluster / configureCluster,
magefile.go 109-149 and 198-204) -/

/-- Oracle world for EnsureCluster. -/
structure EnsureWorld where
  /-- output of kind get kubeconfig for the fixed cluster name; none models a
  failing lookup (no existing credentials) -/
  clusterKubeconfig : Option String
  /-- filepath.Abs of the caller's KUBECONFIG environment variable -/
  envKubeconfigAbs : String
  /-- working directory (pwd) -/
  cwd : String
  /-- writing the canonical credential file succeeds -/
  writeOk : Bool
  /-- kubectl config set-context succeeds -/
  setContextOk : Bool
  /-- world for the creation path -/
  create : CreateWorld
  /-- world for the registry brought up by configureCluster -/
  reg : RegWorld
  /-- flux install succeeds -/
  fluxOk : Bool
deriving Repr

/-- getClusterConfig (magefile.go 119-122): the captured output of
kind get kubeconfig together with err == nil. -/
def getClusterConfig (w : EnsureWorld) : String × Bool :=
  (w.clusterKubeconfig.getD "", w.clusterKubeconfig.isSome)

def lookupCmd : Effect :=
  Effect.runCmd "kind" ["get", "kubeconfig", "--name", kindClusterName]

/-- setClusterNamespace (magefile.go 147-149) issues this kubectl command. -/
def setClusterNamespace (name : String) : Effect :=
  Effect.runCmd "kubectl" ["config", "set-context", "--current", "--namespace", name]

/-- useCluster (magefile.go 125-145): when the credential lookup succeeds, log
the reuse, print the advisory when the caller's KUBECONFIG differs from the
canonical path, point KUBECONFIG at the canonical path, write the fetched
contents there (fatal on write error), set the namespace context (strict
builder, fatal on error, command issued regardless) and report true; when the
lookup fails, report false without error. -/
def useCluster (w : EnsureWorld) : Except Unit Bool × List Effect :=
  match w.clusterKubeconfig with
  | some contents =>
    let currentKubeConfig := pathJoin w.cwd kubeconfig
    let attn : List Effect :=
      if w.envKubeconfigAbs ≠ currentKubeConfig then
        [Effect.logMsg "ATTENTION! You should set your KUBECONFIG"]
      else []
    let tr := [lookupCmd, Effect.logMsg "Reusing existing kind cluster"] ++ attn ++
      [Effect.setEnv "KUBECONFIG" currentKubeConfig]
    if w.writeOk then
      let tr := tr ++ [Effect.writeFile kubeconfig contents, setClusterNamespace operatorNamespace]
      if w.setContextOk then (Except.ok true, tr) else (Except.error (), tr)
    else
      (Except.error (), tr)
  | none => (Except.ok false, [lookupCmd])

def fluxInstallCmd : Effect := Effect.runCmd "flux" ["install"]

/-- configureCluster (magefile.go 198-204): mg.Deps(StartDockerRegistry), then
set the namespace context to the operator namespace, then flux install; each
strict. -/
def configureCluster (w : EnsureWorld) : Except Unit Unit × List Effect :=
  let started := StartDockerRegistry w.reg
  match started.1 with
  | Except.error er => (Except.error er, Effect.dep "StartDockerRegistry" :: started.2)
  | Except.ok _ =>
    let tr := Effect.dep "StartDockerRegistry" :: started.2 ++
      [setClusterNamespace operatorNamespace]
    if w.setContextOk then
      if w.fluxOk then (Except.ok (), tr ++ [fluxInstallCmd])
      else (Except.error (), tr ++ [fluxInstallCmd])
    else
      (Except.error (), tr)

/-- EnsureCluster (magefile.go 109-116): mg.Deps(EnsureKubectl) (an installer,
external collaborator excluded by the spec, modelled as always available);
if useCluster reports false, CreateKindCluster; then configureCluster. -/
def EnsureCluster (w : EnsureWorld) : Except Unit Unit × List Effect :=
  let depE := Effect.dep "EnsureKubectl"
  let used := useCluster w
  match used.1 with
  | Except.error er => (Except.error er, depE :: used.2)
  | Except.ok true =>
    ((configureCluster w).1, depE :: used.2 ++ (configureCluster w).2)
  | Except.ok false =>
    let cr := CreateKindCluster w.create
    match cr.res with
    | Except.error er => (Except.error er, depE :: used.2 ++ cr.trace)
    | Except.ok _ =>
      ((configureCluster w).1, depE :: used.2 ++ cr.trace ++ (configureCluster w).2)

/-! ## Effect-shape predicates and concrete worlds used in the theorems -/

/-- Shape of effects the registry manager can issue: docker commands and its
two log lines. -/
def registryEffect : Effect → Bool
  | Effect.runCmd p _ => p == "docker"
  | Effect.logMsg m => m == "Stopping local docker registry" || m == "Starting local docker registry"
  | _ => false

/-- Shape of effects configureCluster can issue. -/
def configureEffect : Effect → Bool
  | Effect.dep t => t == "StartDockerRegistry"
  | Effect.runCmd p _ => p == "docker" || p == "kubectl" || p == "flux"
  | Effect.logMsg m => m == "Stopping local docker registry" || m == "Starting local docker registry"
  | _ => false

/-- Shape of effects CreateKindCluster can issue: in particular, the only file
it writes or removes is the rendered kind.config.yaml, and it logs nothing. -/
def createEffect : Effect → Bool
  | Effect.dep t => t == "EnsureKind"
  | Effect.setEnv _ _ => true
  | Effect.readFile _ => true
  | Effect.writeFile p _ => p == "kind.config.yaml"
  | Effect.removeFile p => p == "kind.config.yaml"
  | Effect.runCmd p _ => p == "kind" || p == "docker" || p == "kubectl"
  | Effect.logMsg _ => false

/-- A registry world whose container reports running. -/
def regRunning : RegWorld :=
  { present := true, running := true, rmErr := false, rmStderr := "", runOk := true }

/-- A registry world with no container present. -/
def regAbsent : RegWorld :=
  { present := false, running := false, rmErr := false, rmStderr := "", runOk := true }

/-- A registry world where removal fails with the message docker actually
prints for an already-gone container. -/
def regNoSuchRace : RegWorld :=
  { present := true, running := false, rmErr := true,
    rmStderr := "Error: No such container: registry", runOk := true }

/-- A registry world where removal fails with a lowercase no-such-container
message: the source's case-sensitive check does not tolerate it. -/
def stopCounterWorld : RegWorld :=
  { present := true, running := false, rmErr := true,
    rmStderr := "Error: no such container: registry", runOk := true }

/-- A deletion world with no cluster present and no network link. -/
def deleteAbsentWorld : DeleteWorld :=
  { clusterExists := false, deleteCmdOk := false, networkIdOut := "abc123",
    networksOut := "\x7b\x7d", disconnectOk := true }

/-- A creation world where everything up to and including the file write
succeeds and the kind create command then fails. -/
def createFailWorld : CreateWorld :=
  { addrs := [⟨true, false, true, "192.168.1.7"⟩], interfaceAddrsOk := true, cwd := "/work",
    tmplRead := some [TmplPiece.lit "apiServerAddress: ", TmplPiece.addressVar],
    parseOk := true, execOk := true, execStop := 0, writeOk := true, tmpExists0 := false,
    kindCreateOk := false, netConnectOk := true, applyOk := true }

/-- A creation world where no reported address is a non-loopback IPv4 IP
network address. -/
def createNoIPWorld : CreateWorld :=
  { addrs := [⟨true, true, true, "127.0.0.1"⟩, ⟨false, false, false, "lo"⟩],
    interfaceAddrsOk := true, cwd := "/work",
    tmplRead := some [TmplPiece.lit "apiServerAddress: ", TmplPiece.addressVar],
    parseOk := true, execOk := true, execStop := 0, writeOk := true, tmpExists0 := false,
    kindCreateOk := true, netConnectOk := true, applyOk := true }

/-- A creation world where template execution fails after rendering one piece. -/
def createExecFailWorld : CreateWorld :=
  { addrs := [⟨true, false, true, "192.168.1.7"⟩], interfaceAddrsOk := true, cwd := "/work",
    tmplRead := some [TmplPiece.lit "apiServerAddress: ", TmplPiece.addressVar],
    parseOk := true, execOk := false, execStop := 1, writeOk := true, tmpExists0 := false,
    kindCreateOk := true, netConnectOk := true, applyOk := true }

/-- A fully healthy creation world. -/
def createOkWorld : CreateWorld :=
  { addrs := [⟨true, false, true, "192.168.1.7"⟩], interfaceAddrsOk := true, cwd := "/work",
    tmplRead := some [TmplPiece.lit "apiServerAddress: ", TmplPiece.addressVar],
    parseOk := true, execOk := true, execStop := 0, writeOk := true, tmpExists0 := false,
    kindCreateOk := true, netConnectOk := true, applyOk := true }

/-- An ensure world whose credential lookup succeeds. -/
def ensureReuseWorld : EnsureWorld :=
  { clusterKubeconfig := some "apiVersion: v1\nkind: Config\n",
    envKubeconfigAbs := "/work/kind.config", cwd := "/work", writeOk := true,
    setContextOk := true, create := createOkWorld, reg := regRunning, fluxOk := true }

/-- An ensure world whose credential lookup fails. -/
def ensureCreateWorld : EnsureWorld :=
  { clusterKubeconfig := none,
    envKubeconfigAbs := "/work/kind.config", cwd := "/work", writeOk := true,
    setContextOk := true, create := createOkWorld, reg := regRunning, fluxOk := true }

/-! ## Substring containment lemmas -/

theorem startsWithChars_nil (s : List Char) : startsWithChars s [] = true := by
  cases s <;> rfl

theorem startsWithChars_append (p rest : List Char) : startsWithChars (p ++ rest) p = true := by
  induction p with
  | nil => exact startsWithChars_nil rest
  | cons c cs ih => simp [startsWithChars, ih]

theorem containsChars_nil (s : List Char) : containsChars s [] = true := by
  cases s with
  | nil => rfl
  | cons c cs => simp [containsChars, startsWithChars]

theorem startsWithChars_extend (s b p : List Char) (h : startsWithChars s p = true) :
    startsWithChars (s ++ b) p = true := by
  induction p generalizing s with
  | nil => exact startsWithChars_nil _
  | cons q qs ih =>
    cases s with
    | nil => simp [startsWithChars] at h
    | cons c cs =>
      simp [startsWithChars] at h ⊢
      exact ⟨h.1, ih cs h.2⟩

theorem containsChars_append_left (a b p : List Char) (h : containsChars b p = true) :
    containsChars (a ++ b) p = true := by
  induction a with
  | nil => simpa using h
  | cons c cs ih =>
    simp only [List.cons_append, containsChars, Bool.or_eq_true]
    exact Or.inr ih

theorem containsChars_append_right (a b p : List Char) (h : containsChars a p = true) :
    containsChars (a ++ b) p = true := by
  induction a with
  | nil =>
    simp [containsChars] at h
    subst h
    exact containsChars_nil b
  | cons c cs ih =>
    simp only [containsChars, Bool.or_eq_true] at h
    simp only [List.cons_append, containsChars, Bool.or_eq_true]
    rcases h with h | h
    · exact Or.inl (startsWithChars_extend _ _ _ h)
    · exact Or.inr (ih h)

theorem containsChars_self (p : List Char) : containsChars p p = true := by
  cases p with
  | nil => rfl
  | cons c cs =>
    simp only [containsChars, Bool.or_eq_true]
    exact Or.inl (by simpa using startsWithChars_append (c :: cs) [])

theorem strContains_build (a b c : String) : strContains (a ++ b ++ c) b = true := by
  show containsChars ((a.toList ++ b.toList) ++ c.toList) b.toList = true
  exact containsChars_append_right _ _ _ (containsChars_append_left _ _ _ (containsChars_self _))

theorem strContains_append_left (a b p : String) (h : strContains b p = true) :
    strContains (a ++ b) p = true := by
  show containsChars (a.toList ++ b.toList) p.toList = true
  exact containsChars_append_left _ _ _ h

theorem strContains_append_right (a b p : String) (h : strContains a p = true) :
    strContains (a ++ b) p = true := by
  show containsChars (a.toList ++ b.toList) p.toList = true
  exact containsChars_append_right _ _ _ h

theorem serializeEntry_contains_id (n : DockerNetworkEntry) :
    strContains (serializeEntry n) n.id = true :=
  strContains_build ("\"" ++ n.name ++ "\":\x7b\"NetworkID\":\"") n.id "\"\x7d"

theorem networkMember_contains (ns : List DockerNetworkEntry) (idStr : String)
    (h : networkMember ns idStr = true) :
    strContains (serializeNetworksAux ns) idStr = true := by
  induction ns with
  | nil => simp [networkMember] at h
  | cons n rest ih =>
    simp only [networkMember, List.any_cons, Bool.or_eq_true, beq_iff_eq] at h
    cases rest with
    | nil =>
      rcases h with h | h
      · rw [show serializeNetworksAux [n] = serializeEntry n from rfl, ← h]
        exact serializeEntry_contains_id n
      · simp at h
    | cons n2 rest2 =>
      rw [show serializeNetworksAux (n :: n2 :: rest2) =
        serializeEntry n ++ "," ++ serializeNetworksAux (n2 :: rest2) from rfl]
      rcases h with h | h
      · exact strContains_append_right _ _ _
          (strContains_append_right _ _ _ (h ▸ serializeEntry_contains_id n))
      · exact strContains_append_left _ _ _ (ih (by simpa [networkMember] using h))

theorem networkMember_serialized (ns : List DockerNetworkEntry) (idStr : String)
    (h : networkMember ns idStr = true) :
    strContains (serializeNetworks ns) idStr = true :=
  strContains_append_right _ _ _
    (strContains_append_left _ _ _ (networkMember_contains ns idStr h))

/-! ## Claim theorems -/

/-- Claim C4 (amended): isOnDockerNetwork is exactly a substring check on the
serialized attached-networks data; whenever the resolved identifier is a
member of the container's attached-networks set, isOnDockerNetwork returns
true, but a mere substring occurrence can also return true (see the
counterexample). -/
theorem isOnDockerNetwork_membership_sound (idStr : String) (ns : List DockerNetworkEntry)
    (h : networkMember ns idStr = true) :
    isOnDockerNetwork idStr (serializeNetworks ns) = true ∧
    ∀ s : String, isOnDockerNetwork idStr s = strContains s idStr :=
  ⟨networkMember_serialized ns idStr h, fun _ => rfl⟩

theorem isOnDockerNetwork_membership_sound_witness :
    isOnDockerNetwork "netid1" (serializeNetworks [⟨"kind", "netid1"⟩]) = true :=
  (isOnDockerNetwork_membership_sound "netid1" [⟨"kind", "netid1"⟩] (by decide)).1

/-- Claim C4 counterexample: the resolved identifier abc is a proper prefix of the
only attached network's identifier abcdef123, so it is not a member of the
attached-networks set, yet the containment check reports true — a false
positive of isOnDockerNetwork, refuting the claim that it returns true only
on actual membership. -/
theorem isOnDockerNetwork_false_positive :
    isOnDockerNetwork "abc" (serializeNetworks [⟨"kind", "abcdef123"⟩]) = true ∧
    networkMember [(⟨"kind", "abcdef123"⟩ : DockerNetworkEntry)] "abc" = false :=
  ⟨rfl, rfl⟩

/-- Claim C10: isContainerRunning is a total function of the inspect output — it
returns true exactly when the output parses as the boolean true, returns
false on any unparseable output (rather than raising an error), and returns
false when the container does not exist (the inspect command fails with empty
output). -/
theorem isContainerRunning_total (out : String) :
    (isContainerRunning out = true ↔ parseBool out = some true) ∧
    (parseBool out = none → isContainerRunning out = false) ∧
    (∀ r : Bool, isContainerRunning (dockerInspectRunningOut false r) = false) := by
  refine ⟨?_, ?_, ?_⟩
  · unfold isContainerRunning
    cases h : parseBool out with
    | none => simp [h]
    | some b => cases b <;> simp [h]
  · intro h
    simp [isContainerRunning, h]
  · intro r
    rfl

theorem isContainerRunning_total_witness :
    parseBool "garbage" = none ∧ isContainerRunning "garbage" = false :=
  ⟨by decide, (isContainerRunning_total "garbage").2.1 (by decide)⟩

/-- Claim C7 counterexample: a removal failure whose message contains the lowercase
text no such container (but not the capitalized text the source checks for)
is fatal, not treated as success — refuting the claim as stated. -/
theorem StopDockerRegistry_lowercase_fatal :
    strContains stopCounterWorld.rmStderr "no such container" = true ∧
    (StopDockerRegistry stopCounterWorld).1 = Except.error () :=
  ⟨rfl, rfl⟩

/-- Claim C7 (amended): StopDockerRegistry on a non-existent container is a no-op
without error; a removal failure whose message contains the exact
(capitalized) text No such container is treated as already-satisfied success;
and every non-aborting run leaves no container with the registry name. -/
theorem StopDockerRegistry_spec (w : RegWorld) :
    (w.present = false → StopDockerRegistry w = (Except.ok w, [dockerInspectCmd registryContainer])) ∧
    (w.rmErr = true → strContains w.rmStderr "No such container" = true →
      (StopDockerRegistry w).1 ≠ Except.error ()) ∧
    (∀ w1 : RegWorld, (StopDockerRegistry w).1 = Except.ok w1 → w1.present = false) := by
  refine ⟨?_, ?_, ?_⟩
  · intro h
    simp [StopDockerRegistry, containerExists, h]
  · intro he hc
    unfold StopDockerRegistry removeContainer containerExists
    cases hp : w.present with
    | false => simp
    | true => simp [he, hc]
  · intro w1 h
    unfold StopDockerRegistry removeContainer containerExists at h
    cases hp : w.present with
    | false =>
      simp [hp] at h
      rw [← h]
      exact hp
    | true =>
      simp only [hp, if_true] at h
      split at h
      · simp at h
      · simp only [Except.ok.injEq] at h
        rw [← h]

theorem StopDockerRegistry_spec_witness :
    StopDockerRegistry regAbsent = (Except.ok regAbsent, [dockerInspectCmd registryContainer]) ∧
    (StopDockerRegistry regNoSuchRace).1 ≠ Except.error () :=
  ⟨(StopDockerRegistry_spec regAbsent).1 rfl,
   (StopDockerRegistry_spec regNoSuchRace).2.1 rfl (by decide)⟩

/-- Claim C6: if the registry container reports running, StartDockerRegistry is a
no-op (it only issues the inspect query and changes nothing); and whenever a
call returns successfully, a second call issues zero container-start (docker
run) commands. -/
theorem StartDockerRegistry_idempotent (w : RegWorld) :
    (isContainerRunning (dockerInspectRunningOut w.present w.running) = true →
      StartDockerRegistry w = (Except.ok w, [inspectRunningCmd registryContainer])) ∧
    (∀ (w1 : RegWorld) (tr : List Effect), StartDockerRegistry w = (Except.ok w1, tr) →
      dockerRunCount (StartDockerRegistry w1).2 = 0) := by
  constructor
  · intro h
    simp [StartDockerRegistry, h]
  · intro w1 tr h
    unfold StartDockerRegistry at h
    by_cases hr : isContainerRunning (dockerInspectRunningOut w.present w.running) = true
    · rw [if_pos hr] at h
      simp only [Prod.mk.injEq, Except.ok.injEq] at h
      rw [← h.1]
      simp [StartDockerRegistry, hr, dockerRunCount, inspectRunningCmd]
    · rw [if_neg hr] at h
      split at h
      · cases hs : (StopDockerRegistry w).1 with
        | error er => simp [hs] at h
        | ok w2 =>
          simp only [hs, Prod.mk.injEq, Except.ok.injEq] at h
          rw [← h.1]
          simp [StartDockerRegistry, isContainerRunning, dockerInspectRunningOut, parseBool,
            dockerRunCount, inspectRunningCmd]
      · cases hs : (StopDockerRegistry w).1 with
        | error er => simp [hs] at h
        | ok w2 => simp [hs] at h

theorem StartDockerRegistry_idempotent_witness :
    StartDockerRegistry regRunning = (Except.ok regRunning, [inspectRunningCmd registryContainer]) ∧
    dockerRunCount (StartDockerRegistry regRunning).2 = 0 := by
  have h1 := (StartDockerRegistry_idempotent regRunning).1 (by decide)
  exact ⟨h1, (StartDockerRegistry_idempotent regRunning).2 regRunning _ h1⟩

/-- Claim C5: deleting when no cluster exists is not an error (the modelled lenient
delete succeeds and the run proceeds to the network inspection), with no link
the whole deletion succeeds, and the network disconnect command is issued only
when isOnDockerNetwork first confirms a link. -/
theorem DeleteKindCluster_lenient (w : DeleteWorld) :
    (w.clusterExists = false → kindDeleteOk w.clusterExists w.deleteCmdOk = true ∧
      networkInspectCmd ∈ (DeleteKindCluster w).2) ∧
    (w.clusterExists = false → isOnDockerNetwork w.networkIdOut w.networksOut = false →
      (DeleteKindCluster w).1 = Except.ok ()) ∧
    (networkDisconnectCmd ∈ (DeleteKindCluster w).2 →
      isOnDockerNetwork w.networkIdOut w.networksOut = true) := by
  refine ⟨?_, ?_, ?_⟩
  · intro h
    have hk : kindDeleteOk w.clusterExists w.deleteCmdOk = true := by simp [kindDeleteOk, h]
    refine ⟨hk, ?_⟩
    unfold DeleteKindCluster
    rw [hk]
    simp only [eq_self_iff_true, if_true]
    split
    · split <;> simp
    · simp
  · intro h hn
    simp [DeleteKindCluster, kindDeleteOk, h, hn]
  · intro h
    unfold DeleteKindCluster at h
    split at h
    · split at h
      · assumption
      · simp [networkDisconnectCmd, networkInspectCmd, containerNetworksCmd,
          kindDeleteCmd] at h
    · simp [networkDisconnectCmd, kindDeleteCmd] at h

theorem DeleteKindCluster_lenient_witness :
    (kindDeleteOk deleteAbsentWorld.clusterExists deleteAbsentWorld.deleteCmdOk = true ∧
      networkInspectCmd ∈ (DeleteKindCluster deleteAbsentWorld).2) ∧
    (DeleteKindCluster deleteAbsentWorld).1 = Except.ok () :=
  ⟨(DeleteKindCluster_lenient deleteAbsentWorld).1 rfl,
   (DeleteKindCluster_lenient deleteAbsentWorld).2.1 rfl (by decide)⟩

/-- Claim C3: whenever CreateKindCluster has written the rendered temporary
configuration file (a writeFile effect for kind.config.yaml is in its trace),
the file no longer exists when the function returns, on every exit path —
the deferred removal runs on success and on every later failure. -/
theorem CreateKindCluster_tmp_cleanup (w : CreateWorld) (c : String)
    (h : Effect.writeFile "kind.config.yaml" c ∈ (CreateKindCluster w).trace) :
    (CreateKindCluster w).tmpExists = false := by
  cases h1 : w.interfaceAddrsOk with
  | false => simp [CreateKindCluster, h1] at h
  | true =>
    cases h2 : w.tmplRead with
    | none => simp [CreateKindCluster, h1, h2] at h
    | some pieces =>
      cases h3 : w.parseOk with
      | false => simp [CreateKindCluster, h1, h2, h3] at h
      | true =>
        cases h4 : w.writeOk with
        | false => simp [CreateKindCluster, h1, h2, h3, h4] at h
        | true =>
          cases h5 : w.kindCreateOk <;> cases h6 : w.netConnectOk <;> cases h7 : w.applyOk <;>
            simp [CreateKindCluster, h1, h2, h3, h4, h5, h6, h7]

theorem CreateKindCluster_tmp_cleanup_witness :
    Effect.writeFile "kind.config.yaml" "apiServerAddress: 192.168.1.7" ∈
      (CreateKindCluster createFailWorld).trace ∧
    (CreateKindCluster createFailWorld).res = Except.error () ∧
    (CreateKindCluster createFailWorld).tmpExists = false := by
  have hm : Effect.writeFile "kind.config.yaml" "apiServerAddress: 192.168.1.7" ∈
      (CreateKindCluster createFailWorld).trace := by decide
  exact ⟨hm, rfl, CreateKindCluster_tmp_cleanup createFailWorld _ hm⟩

/-- The selection loop returns the first address satisfying the IP-network,
non-loopback, IPv4 test, and the empty string when none does. -/
theorem selectIP_eq_find (addrs : List Addr) :
    selectIP addrs =
      ((addrs.find? fun a => a.isIPNet && !a.isLoopback && a.isIPv4).map Addr.ipStr).getD "" := by
  induction addrs with
  | nil => rfl
  | cons a rest ih =>
    cases h1 : (a.isIPNet && !a.isLoopback) with
    | false => simp [selectIP, List.find?, h1, ih]
    | true =>
      cases h2 : a.isIPv4 with
      | false => simp [selectIP, List.find?, h1, h2, ih]
      | true => simp [selectIP, List.find?, h1, h2]

/-- Claim C8: the host address is the first non-loopback IPv4 IP-network address in
the reported order; when no such address exists the empty string is
substituted into the template and (all external steps succeeding) the
function still succeeds — a soft, non-fatal outcome. -/
theorem CreateKindCluster_ip_selection (w : CreateWorld) (pieces : List TmplPiece)
    (hif : w.interfaceAddrsOk = true)
    (hnone : w.addrs.find? (fun a => a.isIPNet && !a.isLoopback && a.isIPv4) = none)
    (hread : w.tmplRead = some pieces) (hparse : w.parseOk = true) (hexec : w.execOk = true)
    (hwrite : w.writeOk = true) (hcreate : w.kindCreateOk = true)
    (hconn : w.netConnectOk = true) (happly : w.applyOk = true) :
    (∀ addrs : List Addr, selectIP addrs =
      ((addrs.find? fun a => a.isIPNet && !a.isLoopback && a.isIPv4).map Addr.ipStr).getD "") ∧
    selectIP w.addrs = "" ∧
    (CreateKindCluster w).res = Except.ok () ∧
    Effect.writeFile "kind.config.yaml" (renderPieces "" pieces) ∈ (CreateKindCluster w).trace := by
  have hsel : selectIP w.addrs = "" := by
    rw [selectIP_eq_find, hnone]
    rfl
  refine ⟨selectIP_eq_find, hsel, ?_, ?_⟩
  · simp [CreateKindCluster, hif, hread, hparse, hexec, hwrite, hcreate, hconn, happly]
  · simp [CreateKindCluster, hif, hread, hparse, hexec, hwrite, hcreate, hconn, happly, hsel]

theorem CreateKindCluster_ip_selection_witness :
    selectIP createNoIPWorld.addrs = "" ∧
    (CreateKindCluster createNoIPWorld).res = Except.ok () ∧
    Effect.writeFile "kind.config.yaml"
      (renderPieces "" [TmplPiece.lit "apiServerAddress: ", TmplPiece.addressVar]) ∈
      (CreateKindCluster createNoIPWorld).trace := by
  have h := CreateKindCluster_ip_selection createNoIPWorld
    [TmplPiece.lit "apiServerAddress: ", TmplPiece.addressVar]
    rfl (by decide) rfl rfl rfl rfl rfl rfl rfl
  exact ⟨h.2.1, h.2.2.1, h.2.2.2⟩

/-- Claim C9: a failing template execution does not by itself abort the run — the
execution error is overwritten by the write error — so the partially rendered
buffer is written to the rendered file and the file is passed to the cluster
tool. -/
theorem CreateKindCluster_exec_error_ignored (w : CreateWorld) (pieces : List TmplPiece)
    (hif : w.interfaceAddrsOk = true) (hread : w.tmplRead = some pieces)
    (hparse : w.parseOk = true) (hexec : w.execOk = false) (hwrite : w.writeOk = true)
    (hcreate : w.kindCreateOk = true) (hconn : w.netConnectOk = true) (happly : w.applyOk = true) :
    (CreateKindCluster w).res = Except.ok () ∧
    Effect.writeFile "kind.config.yaml"
      (renderPieces (selectIP w.addrs) (pieces.take w.execStop)) ∈ (CreateKindCluster w).trace ∧
    kindCreateCmd ∈ (CreateKindCluster w).trace := by
  refine ⟨?_, ?_, ?_⟩ <;>
    simp [CreateKindCluster, hif, hread, hparse, hexec, hwrite, hcreate, hconn, happly]

theorem CreateKindCluster_exec_error_ignored_witness :
    (CreateKindCluster createExecFailWorld).res = Except.ok () ∧
    Effect.writeFile "kind.config.yaml" "apiServerAddress: " ∈
      (CreateKindCluster createExecFailWorld).trace ∧
    kindCreateCmd ∈ (CreateKindCluster createExecFailWorld).trace := by
  have h := CreateKindCluster_exec_error_ignored createExecFailWorld
    [TmplPiece.lit "apiServerAddress: ", TmplPiece.addressVar]
    rfl rfl rfl rfl rfl rfl rfl rfl
  exact ⟨h.1, h.2.1, h.2.2⟩

theorem StopDockerRegistry_trace_shape (w : RegWorld) :
    ∀ e ∈ (StopDockerRegistry w).2, registryEffect e = true := by
  cases hp : w.present with
  | false =>
    simp [StopDockerRegistry, removeContainer, containerExists, hp, registryEffect,
      dockerInspectCmd, dockerRmCmd]
  | true =>
    simp [StopDockerRegistry, removeContainer, containerExists, hp, registryEffect,
      dockerInspectCmd, dockerRmCmd]

theorem StartDockerRegistry_trace_shape (w : RegWorld) :
    ∀ e ∈ (StartDockerRegistry w).2, registryEffect e = true := by
  intro e he
  have hstop := StopDockerRegistry_trace_shape w e
  unfold StartDockerRegistry at he
  by_cases hr : isContainerRunning (dockerInspectRunningOut w.present w.running) = true
  · rw [if_pos hr] at he
    simp at he
    subst he
    rfl
  · rw [if_neg hr] at he
    cases hs : (StopDockerRegistry w).1 with
    | error er =>
      simp only [hs] at he
      rcases List.mem_cons.mp he with h | h
      · subst h; rfl
      · exact hstop h
    | ok w2 =>
      simp only [hs] at he
      split at he <;>
      · rcases List.mem_cons.mp he with h | h
        · subst h; rfl
        · rcases List.mem_append.mp h with h2 | h2
          · exact hstop h2
          · simp at h2
            rcases h2 with h3 | h3 <;> subst h3 <;> rfl

theorem registryEffect_configureEffect (e : Effect) (h : registryEffect e = true) :
    configureEffect e = true := by
  cases e <;> simp [registryEffect, configureEffect] at h ⊢ <;> simp [h]

theorem configureCluster_trace_shape (w : EnsureWorld) :
    ∀ e ∈ (configureCluster w).2, configureEffect e = true := by
  intro e he
  have hreg := fun h => registryEffect_configureEffect e (StartDockerRegistry_trace_shape w.reg e h)
  unfold configureCluster at he
  cases hs : (StartDockerRegistry w.reg).1 with
  | error er =>
    simp only [hs] at he
    rcases List.mem_cons.mp he with h | h
    · subst h; rfl
    · exact hreg h
  | ok w2 =>
    simp only [hs] at he
    split at he
    · split at he <;>
      · rcases List.mem_cons.mp he with h | h
        · subst h; rfl
        · rcases List.mem_append.mp h with h2 | h2
          · rcases List.mem_append.mp h2 with h4 | h4
            · exact hreg h4
            · simp [setClusterNamespace] at h4
              subst h4; rfl
          · simp [fluxInstallCmd] at h2
            subst h2; rfl
    · rcases List.mem_cons.mp he with h | h
      · subst h; rfl
      · rcases List.mem_append.mp h with h2 | h2
        · exact hreg h2
        · simp [setClusterNamespace] at h2
          subst h2; rfl

theorem CreateKindCluster_trace_shape (w : CreateWorld) :
    ∀ e ∈ (CreateKindCluster w).trace, createEffect e = true := by
  cases h1 : w.interfaceAddrsOk with
  | false => simp [CreateKindCluster, h1, createEffect]
  | true =>
    cases h2 : w.tmplRead with
    | none => simp [CreateKindCluster, h1, h2, createEffect]
    | some pieces =>
      cases h3 : w.parseOk with
      | false => simp [CreateKindCluster, h1, h2, h3, createEffect]
      | true =>
        cases h4 : w.writeOk with
        | false => simp [CreateKindCluster, h1, h2, h3, h4, createEffect]
        | true =>
          cases h5 : w.kindCreateOk <;> cases h6 : w.netConnectOk <;> cases h7 : w.applyOk <;>
            simp [CreateKindCluster, h1, h2, h3, h4, h5, h6, h7, createEffect,
              kindCreateCmd, netConnectCmd, applyCmd]

theorem CreateKindCluster_dep_head (w : CreateWorld) :
    Effect.dep "EnsureKind" ∈ (CreateKindCluster w).trace := by
  cases h1 : w.interfaceAddrsOk with
  | false => simp [CreateKindCluster, h1]
  | true =>
    cases h2 : w.tmplRead with
    | none => simp [CreateKindCluster, h1, h2]
    | some pieces =>
      cases h3 : w.parseOk with
      | false => simp [CreateKindCluster, h1, h2, h3]
      | true =>
        cases h4 : w.writeOk with
        | false => simp [CreateKindCluster, h1, h2, h3, h4]
        | true =>
          cases h5 : w.kindCreateOk <;> cases h6 : w.netConnectOk <;> cases h7 : w.applyOk <;>
            simp [CreateKindCluster, h1, h2, h3, h4, h5, h6, h7]

theorem EnsureCluster_of_ok_true (w : EnsureWorld) (h : (useCluster w).1 = Except.ok true) :
    EnsureCluster w = ((configureCluster w).1,
      Effect.dep "EnsureKubectl" :: (useCluster w).2 ++ (configureCluster w).2) := by
  unfold EnsureCluster
  simp only [h]

theorem EnsureCluster_of_error (w : EnsureWorld) (h : (useCluster w).1 = Except.error ()) :
    EnsureCluster w = (Except.error (), Effect.dep "EnsureKubectl" :: (useCluster w).2) := by
  unfold EnsureCluster
  simp only [h]

/-- Claim C1: when the cluster-credential lookup succeeds (and the file write
itself does not fail at the OS level), EnsureCluster never invokes cluster
creation — neither CreateKindCluster's dependency marker nor the kind create
command appears in its trace — it writes the fetched credential content
byte-identical to the canonical credential file path, and it issues the
set-context command for the operator namespace. -/
theorem EnsureCluster_reuse (w : EnsureWorld) (c : String)
    (hl : w.clusterKubeconfig = some c) (hw : w.writeOk = true) :
    Effect.dep "EnsureKind" ∉ (EnsureCluster w).2 ∧
    kindCreateCmd ∉ (EnsureCluster w).2 ∧
    Effect.writeFile kubeconfig c ∈ (EnsureCluster w).2 ∧
    setClusterNamespace operatorNamespace ∈ (EnsureCluster w).2 := by
  have hutr : (useCluster w).2 =
      [lookupCmd, Effect.logMsg "Reusing existing kind cluster"] ++
        (if w.envKubeconfigAbs ≠ pathJoin w.cwd kubeconfig then
          [Effect.logMsg "ATTENTION! You should set your KUBECONFIG"] else []) ++
        [Effect.setEnv "KUBECONFIG" (pathJoin w.cwd kubeconfig),
         Effect.writeFile kubeconfig c, setClusterNamespace operatorNamespace] := by
    cases hs : w.setContextOk <;> simp [useCluster, hl, hw, hs]
  cases hs : w.setContextOk with
  | false =>
    have h1 : (useCluster w).1 = Except.error () := by
      simp [useCluster, hl, hw, hs]
    rw [EnsureCluster_of_error w h1]
    refine ⟨?_, ?_, ?_, ?_⟩ <;>
      by_cases ha : w.envKubeconfigAbs = pathJoin w.cwd kubeconfig <;>
        simp [hutr, ha, lookupCmd, kindCreateCmd, setClusterNamespace]
  | true =>
    have h1 : (useCluster w).1 = Except.ok true := by
      simp [useCluster, hl, hw, hs]
    rw [EnsureCluster_of_ok_true w h1]
    refine ⟨?_, ?_, ?_, ?_⟩
    · intro hmem
      rcases List.mem_cons.mp hmem with h | h
      · simp at h
      · rcases List.mem_append.mp h with h | h
        · by_cases ha : w.envKubeconfigAbs = pathJoin w.cwd kubeconfig <;>
            simp [hutr, ha, lookupCmd, setClusterNamespace] at h
        · exact absurd (configureCluster_trace_shape w _ h) (by decide)
    · intro hmem
      rcases List.mem_cons.mp hmem with h | h
      · simp [kindCreateCmd] at h
      · rcases List.mem_append.mp h with h | h
        · by_cases ha : w.envKubeconfigAbs = pathJoin w.cwd kubeconfig <;>
            simp [hutr, ha, lookupCmd, kindCreateCmd, setClusterNamespace] at h
        · exact absurd (configureCluster_trace_shape w _ h) (by decide)
    · apply List.mem_cons_of_mem
      apply List.mem_append_left
      by_cases ha : w.envKubeconfigAbs = pathJoin w.cwd kubeconfig <;> simp [hutr, ha]
    · apply List.mem_cons_of_mem
      apply List.mem_append_left
      by_cases ha : w.envKubeconfigAbs = pathJoin w.cwd kubeconfig <;> simp [hutr, ha]

theorem EnsureCluster_reuse_witness :
    Effect.dep "EnsureKind" ∉ (EnsureCluster ensureReuseWorld).2 ∧
    kindCreateCmd ∉ (EnsureCluster ensureReuseWorld).2 ∧
    Effect.writeFile kubeconfig "apiVersion: v1\nkind: Config\n" ∈ (EnsureCluster ensureReuseWorld).2 ∧
    setClusterNamespace operatorNamespace ∈ (EnsureCluster ensureReuseWorld).2 :=
  EnsureCluster_reuse ensureReuseWorld "apiVersion: v1\nkind: Config\n" rfl rfl

/-- Claim C2: when the cluster-credential lookup fails, useCluster reports
false without error (the failure is treated as cluster-absent, not as an
abort), EnsureCluster takes the creation path (CreateKindCluster's dependency
marker is in the trace), and the reuse path is never taken — no reuse log
line and no write of the canonical credential file. -/
theorem EnsureCluster_creates (w : EnsureWorld) (hl : w.clusterKubeconfig = none) :
    useCluster w = (Except.ok false, [lookupCmd]) ∧
    Effect.dep "EnsureKind" ∈ (EnsureCluster w).2 ∧
    Effect.logMsg "Reusing existing kind cluster" ∉ (EnsureCluster w).2 ∧
    ∀ s : String, Effect.writeFile kubeconfig s ∉ (EnsureCluster w).2 := by
  have hu : useCluster w = (Except.ok false, [lookupCmd]) := by
    simp [useCluster, hl]
  cases hres : (CreateKindCluster w.create).res with
  | error er =>
    cases er
    have hens : (EnsureCluster w).2 =
        Effect.dep "EnsureKubectl" :: [lookupCmd] ++ (CreateKindCluster w.create).trace := by
      unfold EnsureCluster
      simp only [hu]
      simp [hres]
    refine ⟨hu, ?_, ?_, ?_⟩
    · rw [hens]
      apply List.mem_cons_of_mem
      apply List.mem_append_right
      exact CreateKindCluster_dep_head w.create
    · rw [hens]
      intro hmem
      rcases List.mem_cons.mp hmem with h | h
      · simp at h
      · rcases List.mem_append.mp h with h | h
        · simp [lookupCmd] at h
        · exact absurd (CreateKindCluster_trace_shape w.create _ h) (by decide)
    · intro s
      rw [hens]
      intro hmem
      rcases List.mem_cons.mp hmem with h | h
      · simp at h
      · rcases List.mem_append.mp h with h | h
        · simp [lookupCmd] at h
        · exact absurd (CreateKindCluster_trace_shape w.create _ h)
            (by simp [createEffect, kubeconfig])
  | ok u =>
    cases u
    have hens : (EnsureCluster w).2 =
        Effect.dep "EnsureKubectl" :: [lookupCmd] ++ (CreateKindCluster w.create).trace ++
          (configureCluster w).2 := by
      unfold EnsureCluster
      simp only [hu]
      simp [hres]
    refine ⟨hu, ?_, ?_, ?_⟩
    · rw [hens]
      apply List.mem_cons_of_mem
      apply List.mem_append_left
      apply List.mem_append_right
      exact CreateKindCluster_dep_head w.create
    · rw [hens]
      intro hmem
      rcases List.mem_cons.mp hmem with h | h
      · simp at h
      · rcases List.mem_append.mp h with h | h
        · rcases List.mem_append.mp h with h | h
          · simp [lookupCmd] at h
          · exact absurd (CreateKindCluster_trace_shape w.create _ h) (by decide)
        · exact absurd (configureCluster_trace_shape w _ h) (by decide)
    · intro s
      rw [hens]
      intro hmem
      rcases List.mem_cons.mp hmem with h | h
      · simp at h
      · rcases List.mem_append.mp h with h | h
        · rcases List.mem_append.mp h with h | h
          · simp [lookupCmd] at h
          · exact absurd (CreateKindCluster_trace_shape w.create _ h)
              (by simp [createEffect, kubeconfig])
        · exact absurd (configureCluster_trace_shape w _ h) (by simp [configureEffect])

theorem EnsureCluster_creates_witness :
    useCluster ensureCreateWorld = (Except.ok false, [lookupCmd]) ∧
    Effect.dep "EnsureKind" ∈ (EnsureCluster ensureCreateWorld).2 ∧
    Effect.logMsg "Reusing existing kind cluster" ∉ (EnsureCluster ensureCreateWorld).2 ∧
    ∀ s : String, Effect.writeFile kubeconfig s ∉ (EnsureCluster ensureCreateWorld).2 :=
  EnsureCluster_creates ensureCreateWorld rfl

end PorterFlux
